import Mathlib

/-!
Shallow embedding of the serve_adk gateway (FastAPI gateway over the Vertex AI
Agent Engine backend) and proofs about the claims of its specification.

The Python sources embedded here:
  app/utils/converters.py      (part_to_dict, content_to_dict,
                                event_actions_to_dict, adk_event_to_dict)
  app/services/agent_service.py (AgentService.query, AgentService.stream_query,
                                AgentServiceFactory.get_agent_service)
  app/services/event_service.py (EventService.append_event, list_events,
                                get_conversation_history)
  app/services/session_service.py (SessionService.update_state, get_session)
  app/api/events.py            (append_event endpoint)
  app/core/streaming.py        (SSEEventType)
  app/core/errors.py           (error taxonomy)

Python dicts are modelled either as association lists (state dicts, whose keys
are data) or as structures with Option fields (event dicts, whose keys are a
fixed known set); an absent key and a key present with value None are conflated
where the code only ever tests truthiness, which preserves every observable
result proved below.  Machine floats (timestamps) carry no arithmetic here and
are modelled as Int.
-/

namespace ServeAdk

/-- Python string truthiness for an optional string: None and "" are falsy. -/
def pyTruthyOptStr : Option String → Bool
  | none => false
  | some s => !(s == "")

/-! ## Python dict operations (insertion-ordered association lists)

`pySet d k v` mirrors `d[k] = v` on a Python dict: an existing key keeps its
position and gets the new value, a new key is appended. -/

def pySet {α : Type} (d : List (String × α)) (k : String) (v : α) :
    List (String × α) :=
  if d.any (fun p => p.1 == k) then
    d.map (fun p => if p.1 == k then (p.1, v) else p)
  else d ++ [(k, v)]

/-- Python dict lookup `d.get(k)`: the value of the first matching key. -/
def pyGet {α : Type} : List (String × α) → String → Option α
  | [], _ => none
  | p :: t, k => if p.1 == k then some p.2 else pyGet t k

/-- `pyMerge a b` mirrors the Python dict expression that spreads `a` and then
`b`, so keys of `b` win. -/
def pyMerge {α : Type} (a b : List (String × α)) : List (String × α) :=
  b.foldl (fun acc p => pySet acc p.1 p.2) a

/-! ## Data model: genai parts / content / ADK events (converters.py) -/

structure FunctionCall where
  name : String
  args : List (String × Int) := []
deriving DecidableEq, Repr

structure FunctionResponse where
  name : String
  response : List (String × Int) := []
deriving DecidableEq, Repr

structure FileData where
  file_uri : String
  mime_type : String
deriving DecidableEq, Repr

structure InlineBlob where
  mime_type : String
  data : String
deriving DecidableEq, Repr

/-- A `google.genai.types.Part`: a pydantic model whose fields are all
optional; the Python type does not enforce that only one field is set. -/
structure Part where
  text : Option String := none
  function_call : Option FunctionCall := none
  function_response : Option FunctionResponse := none
  file_data : Option FileData := none
  inline_data : Option InlineBlob := none
deriving DecidableEq, Repr

/-- The dict produced by `part_to_dict`: at most these five keys, a key being
present exactly when the field is `some`. -/
structure PartDict where
  text : Option String := none
  function_call : Option FunctionCall := none
  function_response : Option FunctionResponse := none
  file_data : Option FileData := none
  inline_data : Option InlineBlob := none
deriving DecidableEq, Repr

/-- `part_to_dict` (converters.py): each field is copied under its own key
when truthy; for `text` truthiness excludes the empty string, the other four
are pydantic objects, truthy exactly when present. -/
def part_to_dict (p : Part) : PartDict :=
  { text := if pyTruthyOptStr p.text then p.text else none
    function_call := p.function_call
    function_response := p.function_response
    file_data := p.file_data
    inline_data := p.inline_data }

structure Content where
  role : String
  parts : List Part
deriving DecidableEq, Repr

structure ContentDict where
  role : String
  parts : List PartDict
deriving DecidableEq, Repr

/-- `content_to_dict` (converters.py): None stays None, otherwise a dict with
`role` and the normalized parts. -/
def content_to_dict : Option Content → Option ContentDict
  | none => none
  | some c => some { role := c.role, parts := c.parts.map part_to_dict }

/-- `google.adk.events.EventActions` and the dict `event_actions_to_dict`
produces from it; an absent key is conflated with an empty mapping. -/
structure ActionsDict where
  state_delta : List (String × Option Int) := []
  artifact_delta : List (String × Int) := []
  transfer_to_agent : Option String := none
  escalate : Option Bool := none
deriving DecidableEq, Repr

/-- `event_actions_to_dict` (converters.py): each key is emitted only when the
field is truthy (empty mappings and empty strings are dropped, `escalate` is
kept whenever it is not None). -/
def event_actions_to_dict (a : ActionsDict) : ActionsDict :=
  { state_delta := a.state_delta
    artifact_delta := a.artifact_delta
    transfer_to_agent :=
      if pyTruthyOptStr a.transfer_to_agent then a.transfer_to_agent else none
    escalate := a.escalate }

/-- A typed `google.adk.events.Event` object as converted by
`adk_event_to_dict`; `incomplete_flag` models the Python field named
"partial". -/
structure AdkEvent where
  id : String
  author : String
  invocation_id : String
  timestamp : Int
  content : Option Content := none
  actions : Option ActionsDict := none
  incomplete_flag : Option Bool := none
  turn_complete : Option Bool := none
  finish_reason : Option String := none
deriving DecidableEq, Repr

/-- The event dict shape flowing through the gateway: the union of the keys
`adk_event_to_dict` can emit, plus `session_id` and `usage_metadata`, which a
backend-supplied plain dict may carry but the object conversion never emits.
`none` models an absent key; `incomplete_flag` models the key named
"partial". -/
structure EventDict where
  id : Option String := none
  author : Option String := none
  invocation_id : Option String := none
  timestamp : Option Int := none
  content : Option ContentDict := none
  actions : Option ActionsDict := none
  incomplete_flag : Option Bool := none
  turn_complete : Option Bool := none
  finish_reason : Option String := none
  session_id : Option String := none
  usage_metadata : Option Int := none
deriving DecidableEq, Repr

/-- A backend event as delivered by `async_stream_query` or the event list:
either already a plain dict, or a typed Event object. -/
inductive BackendEvent where
  | dict (d : EventDict)
  | obj (e : AdkEvent)
deriving DecidableEq, Repr

/-- `adk_event_to_dict` (converters.py): a dict input is returned unchanged;
an Event object is converted field by field, `content` and `actions` only when
present, `finish_reason` only when a truthy (non-empty) string. -/
def adk_event_to_dict : BackendEvent → EventDict
  | .dict d => d
  | .obj e =>
    { id := some e.id
      author := some e.author
      invocation_id := some e.invocation_id
      timestamp := some e.timestamp
      content := content_to_dict e.content
      actions := e.actions.map event_actions_to_dict
      incomplete_flag := e.incomplete_flag
      turn_complete := e.turn_complete
      finish_reason :=
        if pyTruthyOptStr e.finish_reason then e.finish_reason else none
      session_id := none
      usage_metadata := none }

/-! ## Streaming query (agent_service.py, AgentService.stream_query)

The generator body is a single loop: for each backend event it yields
`adk_event_to_dict(event)`.  No synthetic frames are produced. -/

def stream_query : List BackendEvent → List EventDict
  | [] => []
  | ev :: rest => adk_event_to_dict ev :: stream_query rest

/-! ## Non-streaming query (agent_service.py, AgentService.query)

The loop drives the same backend stream, accumulating the event dicts, the
concatenated text of all content parts, and a session id resolved from the
events.  The session-id step mirrors
`if not session_id and "invocation_id" in event_dict:
     session_id = event_dict["invocation_id"]`
and the return mirrors `session_id or f"new-session-{user_id}"`. -/

/-- Text contributed by one part: `if "text" in part and part["text"]`
followed by `final_response += part["text"]`; an absent or empty text
contributes the empty string either way. -/
def partDictText (p : PartDict) : String :=
  match p.text with
  | some s => s
  | none => ""

/-- Text contributed by one event dict. -/
def eventDictText (d : EventDict) : String :=
  match d.content with
  | some c => String.join (c.parts.map partDictText)
  | none => ""

/-- One step of the session-id resolution inside the query loop. -/
def sessionIdStep (acc : Option String) (d : EventDict) : Option String :=
  if pyTruthyOptStr acc then acc
  else
    match d.invocation_id with
    | some v => some v
    | none => acc

/-- `_extract_usage_metadata` (agent_service.py): scan the collected events
from the latest backwards and return the first `usage_metadata` found. -/
def extract_usage_metadata (events : List EventDict) : Option Int :=
  (events.reverse.find? (fun d => d.usage_metadata.isSome)).bind
    (fun d => d.usage_metadata)

structure QueryAcc where
  events_list : List EventDict := []
  final_response : String := ""
  session_id : Option String := none
deriving DecidableEq, Repr

def queryStep (acc : QueryAcc) (ev : BackendEvent) : QueryAcc :=
  let d := adk_event_to_dict ev
  { events_list := acc.events_list ++ [d]
    final_response := acc.final_response ++ eventDictText d
    session_id := sessionIdStep acc.session_id d }

structure QueryResponse where
  session_id : String
  response : String
  events : List EventDict
  usage_metadata : Option Int
deriving DecidableEq, Repr

/-- `AgentService.query` on a backend stream that yields `bes` and raises no
error; `session_id0` is the caller-supplied session id (None when absent). -/
def query (user_id : String) (session_id0 : Option String)
    (bes : List BackendEvent) : QueryResponse :=
  let acc := bes.foldl queryStep { session_id := session_id0 }
  { session_id :=
      if pyTruthyOptStr acc.session_id then acc.session_id.getD ""
      else "new-session-" ++ user_id
    response := acc.final_response
    events := acc.events_list
    usage_metadata := extract_usage_metadata acc.events_list }

/-- The first truthy `invocation_id` among the normalized events of the
stream; this is what the query loop's resolution converges to. -/
def firstTruthyInvocationId (bes : List BackendEvent) : Option String :=
  (bes.map adk_event_to_dict).findSome? (fun d =>
    match d.invocation_id with
    | some v => if v == "" then none else some v
    | none => none)

/-- The quantity named by the spec sentence: the first non-null session id
observed on the backend event stream.  Stated from the spec's words for
comparison with what `query` actually computes. -/
def specFirstSessionId (bes : List BackendEvent) : Option String :=
  (bes.map adk_event_to_dict).findSome? (fun d => d.session_id)

/-! ## Event listing with offset/limit (event_service.py, list_events)

The loop is instrumented: `events` is the returned list, `normalized_positions`
records the 0-indexed backend positions that were passed to
`adk_event_to_dict`, and `pulled` counts how many items were drawn from the
backend iterator before the loop finished. -/

structure ListEventsTrace where
  events : List EventDict := []
  normalized_positions : List Nat := []
  pulled : Nat := 0
deriving DecidableEq, Repr

/-- `if offset and count < offset` (offset None or 0 is falsy). -/
def pySkipOffset (offset : Option Nat) (count : Nat) : Bool :=
  match offset with
  | some o => decide (o ≠ 0) && decide (count < o)
  | none => false

/-- `if limit and len(events) >= limit` (limit None or 0 is falsy). -/
def pyLimitReached (limit : Option Nat) (n : Nat) : Bool :=
  match limit with
  | some l => decide (l ≠ 0) && decide (n ≥ l)
  | none => false

def listEventsGo (limit offset : Option Nat) :
    List (Nat × BackendEvent) → Nat → ListEventsTrace → ListEventsTrace
  | [], _, acc => acc
  | (i, ev) :: rest, count, acc =>
    let acc1 : ListEventsTrace := { acc with pulled := acc.pulled + 1 }
    if pySkipOffset offset count then
      listEventsGo limit offset rest (count + 1) acc1
    else
      let d := adk_event_to_dict ev
      let acc2 : ListEventsTrace :=
        { acc1 with
          events := acc1.events ++ [d]
          normalized_positions := acc1.normalized_positions ++ [i] }
      if pyLimitReached limit acc2.events.length then acc2
      else listEventsGo limit offset rest (count + 1) acc2

/-- `EventService.list_events` over a backend iterator that yields `bes`. -/
def list_events (bes : List BackendEvent) (limit offset : Option Nat) :
    ListEventsTrace :=
  listEventsGo limit offset bes.enum 0 {}

/-! ## Conversation history (event_service.py, get_conversation_history) -/

structure Turn where
  user : Option EventDict := none
  agent : Option EventDict := none
deriving DecidableEq, Repr

/-- One event of the pairing loop.  A user event closes the current turn when
its user slot is already filled; an agent/model event fills the agent slot of
the current turn. -/
def historyStep (st : List Turn × Turn) (d : EventDict) : List Turn × Turn :=
  let convs := st.1
  let cur := st.2
  if d.author = some "user" then
    if cur.user.isSome then
      (convs ++ [cur], { user := some d, agent := none })
    else (convs, { cur with user := some d })
  else if d.author = some "agent" ∨ d.author = some "model" then
    (convs, { cur with agent := some d })
  else (convs, cur)

/-- `EventService.get_conversation_history` on the session's event dicts:
fold the pairing step, flush a final turn whose user slot is filled, then
apply the `conversations[-max_turns:]` cap (max_turns None or 0 is falsy). -/
def get_conversation_history (events : List EventDict)
    (max_turns : Option Nat) : List Turn :=
  let st := events.foldl historyStep ([], {})
  let convs := if st.2.user.isSome then st.1 ++ [st.2] else st.1
  match max_turns with
  | some m => if m ≠ 0 then convs.drop (convs.length - m) else convs
  | none => convs

/-! ## Error taxonomy (core/errors.py) -/

inductive GatewayError where
  | agentNotFound (agent_id : String)
  | sessionNotFound (session_id : String)
  | invalidStateUpdate (message : String)
  | eventAppendError (message : String)
  | agentEngineError (message : String)
deriving DecidableEq, Repr

/-- `str(e)` of each error: the `message` attribute set by the constructor
(quote marks around ids elided). -/
def GatewayError.message : GatewayError → String
  | .agentNotFound a => "Agent with ID " ++ a ++ " not found"
  | .sessionNotFound s => "Session " ++ s ++ " not found"
  | .invalidStateUpdate m => "Invalid state update: " ++ m
  | .eventAppendError m => "Failed to append event: " ++ m
  | .agentEngineError m => "Agent Engine error: " ++ m

/-! ## Session state protocol (session_service.py / event_service.py)

Session state is a string-keyed mapping; a state delta maps keys to a value or
to None (None meaning delete under replace semantics). -/

abbrev SessionState := List (String × Int)
abbrev StateDelta := List (String × Option Int)

/-- The clear delta of the replace path:
`{key: None for key in current_session.state.keys()}`. -/
def clearDelta (state : SessionState) : StateDelta :=
  state.map (fun p => (p.1, (none : Option Int)))

/-- Modelled from the spec: the backend applies an appended event's
`state_delta` to the session state by the §3 invariant — each delta merged
key-by-key, a None value deleting the key.  The backend itself is an external
collaborator and is not part of src. -/
def applyStateDelta (state : SessionState) (delta : StateDelta) :
    SessionState :=
  delta.foldl
    (fun st p =>
      match p.2 with
      | some v => pySet st p.1 v
      | none => st.filter (fun q => q.1 ≠ p.1))
    state

/-- The remote backend as the session/event claims need it: its session store,
plus a flag making it reject event appends (e.g. a malformed delta). -/
structure Backend where
  sessions : List (String × SessionState) := []
  append_rejects : Bool := false
deriving DecidableEq, Repr

/-- `SessionService.get_session`: a missing session surfaces as
SessionNotFoundError (the service maps the backend's not-found failure). -/
def svc_get_session (b : Backend) (session_id : String) :
    Except GatewayError SessionState :=
  match pyGet b.sessions session_id with
  | some st => .ok st
  | none => .error (.sessionNotFound session_id)

/-- Modelled from the spec: the backend append call — rejects when the
session is missing or when the backend rejects the delta, otherwise lands the
whole delta atomically via the §3 fold. -/
def backend_append (b : Backend) (session_id : String) (delta : StateDelta) :
    Except String Backend :=
  if b.append_rejects then .error "append rejected"
  else
    match pyGet b.sessions session_id with
    | none => .error "session not found"
    | some st =>
      .ok { b with
            sessions := pySet b.sessions session_id (applyStateDelta st delta) }

/-- `EventService.append_event`: any failure of the backend append is caught
and re-raised as EventAppendError (note: this method does not map a missing
session to SessionNotFoundError). -/
def svc_append_event (b : Backend) (session_id : String)
    (delta : StateDelta) : Except GatewayError Backend :=
  match backend_append b session_id delta with
  | .ok b1 => .ok b1
  | .error msg => .error (.eventAppendError msg)

/-- The `try/except` wrapper of `update_state`: `except Exception as e:
raise InvalidStateUpdateError(str(e))` — every exception of the body,
whatever its class, is re-raised as InvalidStateUpdateError. -/
def exceptAsInvalidStateUpdate {α : Type} :
    Except GatewayError α → Except GatewayError α
  | .ok v => .ok v
  | .error e => .error (.invalidStateUpdate e.message)

/-- `SessionService.update_state`: build the delta (replace merges the
caller's delta over a clear delta of the current state), append the synthetic
system event, re-fetch the session — all inside the try/except that wraps any
failure as InvalidStateUpdateError. -/
def update_state (b : Backend) (session_id : String)
    (state_delta : StateDelta) (replace : Bool) :
    Except GatewayError (SessionState × Backend) :=
  exceptAsInvalidStateUpdate (do
    let delta ←
      if replace then do
        let cur ← svc_get_session b session_id
        pure (pyMerge (clearDelta cur) state_delta)
      else pure state_delta
    let b1 ← svc_append_event b session_id delta
    let final ← svc_get_session b1 session_id
    pure (final, b1))

/-- Whether an `update_state` outcome is either success or an
InvalidStateUpdate failure (the only error kind the method can surface). -/
def okOrInvalidStateUpdate :
    Except GatewayError (SessionState × Backend) → Bool
  | .ok _ => true
  | .error (.invalidStateUpdate _) => true
  | .error _ => false

/-! ## Agent registry/factory (agent_service.py, AgentServiceFactory) -/

structure AgentConfig where
  agent_id : String
  project_id : Option String := none
  location : Option String := none
  name : String := ""
  display_name : String := ""
  description : String := ""
  enabled : Bool := true
deriving DecidableEq, Repr

structure GatewaySettings where
  agents : List AgentConfig
deriving DecidableEq, Repr

/-- `Settings.get_agent_config` (config.py): first configured entry whose
`agent_id` matches. -/
def get_agent_config (s : GatewaySettings) (agent_id : String) :
    Option AgentConfig :=
  s.agents.find? (fun a => a.agent_id == agent_id)

/-- The factory's process-wide state: the `_services` cache mapping agent ids
to the constructed AgentService handle (a handle is identified by a Nat), and
an instrumentation counter of how many times AgentService construction — and
with it the backend client initialization of `__init__` — has run. -/
structure AgentServiceFactory where
  services : List (String × Nat) := []
  constructions : Nat := 0
deriving DecidableEq, Repr

/-- `AgentServiceFactory.get_agent_service`: return the cached service when
present; otherwise look up the configuration (AgentNotFoundError when absent,
AgentEngineError when disabled), construct the AgentService once — the backend
client construction is external and modelled as succeeding — and cache it. -/
def get_agent_service (st : GatewaySettings) (f : AgentServiceFactory)
    (agent_id : String) : Except GatewayError (Nat × AgentServiceFactory) :=
  match pyGet f.services agent_id with
  | some svc => .ok (svc, f)
  | none =>
    match get_agent_config st agent_id with
    | none => .error (.agentNotFound agent_id)
    | some cfg =>
      if !cfg.enabled then
        .error (.agentEngineError ("Agent " ++ agent_id ++ " is disabled"))
      else
        .ok (f.constructions,
             { services := pySet f.services agent_id f.constructions
               constructions := f.constructions + 1 })

/-! ## Append-event HTTP endpoint (api/events.py)

The handler body calls `event_service.append_event_async(...)`; the except
chain maps SessionNotFoundError to 404, EventAppendError to 400, anything
else to 500. -/

/-- The methods the EventService class defines (event_service.py). -/
def eventServiceMethodNames : List String :=
  ["__init__", "_initialize_client", "_build_session_name",
   "append_event", "list_events", "list_events_async",
   "get_conversation_history"]

inductive PyError where
  | attributeError (attr : String)
  | gateway (e : GatewayError)
deriving DecidableEq, Repr

/-- Python attribute access on the event service for an append-shaped
callable: of `eventServiceMethodNames`, only `append_event` has this shape;
any attribute the class does not define raises AttributeError. -/
def getattrEventService (attr : String) :
    Option (Backend → String → StateDelta → Except GatewayError Backend) :=
  if attr == "append_event" then some svc_append_event else none

structure HttpResponse where
  status : Nat
deriving DecidableEq, Repr

/-- The POST .../events handler: invoke `append_event_async` on the event
service, then map exceptions per the handler's except chain.  Returns the
response and the backend as left by the handler. -/
def append_event_endpoint (b : Backend) (session_id : String)
    (delta : StateDelta) : HttpResponse × Backend :=
  let result : Except PyError Backend :=
    match getattrEventService "append_event_async" with
    | some f =>
      match f b session_id delta with
      | .ok b1 => .ok b1
      | .error e => .error (.gateway e)
    | none => .error (.attributeError "append_event_async")
  match result with
  | .ok b1 => ({ status := 200 }, b1)
  | .error (.gateway (.sessionNotFound _)) => ({ status := 404 }, b)
  | .error (.gateway (.eventAppendError _)) => ({ status := 400 }, b)
  | .error _ => ({ status := 500 }, b)

/-! ## SSE event tags and the classifier

`SSEEventType` (core/streaming.py) declares the tag constants; the spec's §4.2
classifier itself is not implemented under src. -/

/-- The SSE tag vocabulary of the spec (§4.2).  The source's `SSEEventType`
class declares string constants for all of these except `state_update`. -/
inductive SSETag where
  | message_start
  | content_delta
  | function_call
  | function_response
  | state_update
  | message_complete
  | error
  | ping
deriving DecidableEq, Repr

/-- The constants the source's `SSEEventType` class actually declares. -/
def sseEventTypeConstants : List String :=
  ["message_start", "content_delta", "function_call", "function_response",
   "message_complete", "error", "ping"]

/-- A synthetic marker inserted by the orchestrator (spec §4.2 step 1). -/
inductive SyntheticMarker where
  | start
  | complete
  | failure
deriving DecidableEq, Repr

/-- Whether a normalized event carries a non-empty `actions.state_delta`. -/
def hasNonemptyStateDelta (d : EventDict) : Bool :=
  match d.actions with
  | some a => !a.state_delta.isEmpty
  | none => false

/-- Whether any content part of a normalized event carries a function call. -/
def hasFunctionCallPart (d : EventDict) : Bool :=
  match d.content with
  | some c => c.parts.any (fun p => p.function_call.isSome)
  | none => false

/-- Whether any content part of a normalized event carries a function
response. -/
def hasFunctionResponsePart (d : EventDict) : Bool :=
  match d.content with
  | some c => c.parts.any (fun p => p.function_response.isSome)
  | none => false

/-- Modelled from the spec: the §4.2 Event Classifier, which src does not
implement (only the `SSEEventType` tag constants exist there).  Priority
order: synthetic markers first, then a non-empty `actions.state_delta`, then
the content-part scan for function_call / function_response, else
content_delta. -/
def classify (synthetic : Option SyntheticMarker) (d : EventDict) : SSETag :=
  match synthetic with
  | some .start => .message_start
  | some .complete => .message_complete
  | some .failure => .error
  | none =>
    if hasNonemptyStateDelta d then .state_update
    else if hasFunctionCallPart d then .function_call
    else if hasFunctionResponsePart d then .function_response
    else .content_delta

/-- Number of keys among {text, function_call, function_response, file_data,
inline_data} present in a normalized part dict. -/
def PartDict.keyCount (d : PartDict) : Nat :=
  (if d.text.isSome then 1 else 0) +
  (if d.function_call.isSome then 1 else 0) +
  (if d.function_response.isSome then 1 else 0) +
  (if d.file_data.isSome then 1 else 0) +
  (if d.inline_data.isSome then 1 else 0)

/-- Number of truthy payload fields of a genai part (text counts when a
non-empty string, the object fields whenever present). -/
def partTruthyFieldCount (p : Part) : Nat :=
  (if pyTruthyOptStr p.text then 1 else 0) +
  (if p.function_call.isSome then 1 else 0) +
  (if p.function_response.isSome then 1 else 0) +
  (if p.file_data.isSome then 1 else 0) +
  (if p.inline_data.isSome then 1 else 0)

/-! ## Concrete instances used by the counterexamples and witnesses -/

/-- E1 of the stream-framing scenario: a partial-text event. -/
def streamE1 : BackendEvent :=
  .obj { id := "e1", author := "model", invocation_id := "inv-1",
         timestamp := 1,
         content := some { role := "model", parts := [{ text := some "Hel" }] }
         incomplete_flag := some true }

/-- E2 of the stream-framing scenario: a full-text event. -/
def streamE2 : BackendEvent :=
  .obj { id := "e2", author := "model", invocation_id := "inv-1",
         timestamp := 2,
         content := some { role := "model",
                           parts := [{ text := some "Hello" }] } }

/-- E3 of the stream-framing scenario: a state-delta-only event. -/
def streamE3 : BackendEvent :=
  .obj { id := "e3", author := "model", invocation_id := "inv-1",
         timestamp := 3,
         actions := some { state_delta := [("a", some 1)] } }

/-- A backend with one session `s1` whose state is `{a: 0, b: 2}`. -/
def sessionBackend0 : Backend :=
  { sessions := [("s1", [("a", 0), ("b", 2)])] }

/-- A backend holding session `s1` but rejecting every event append. -/
def rejectingBackend : Backend :=
  { sessions := [("s1", [("a", 0), ("b", 2)])], append_rejects := true }

/-- An event carrying both a non-empty state delta and a function-call
part. -/
def c3Event : EventDict :=
  { actions := some { state_delta := [("k", some 1)] }
    content := some { role := "model",
                      parts := [{ function_call := some { name := "f" } }] } }

/-- The event dict at backend position `i` of the ten-event session. -/
def c5Dict (i : Nat) : EventDict :=
  { id := some (toString i) }

/-- A ten-event backend session, events at positions 0 through 9. -/
def c5Events : List BackendEvent :=
  (List.range 10).map (fun i => .dict (c5Dict i))

/-- A streamed backend event carrying an invocation id and a session id. -/
def c6Event : EventDict :=
  { invocation_id := some "inv-1", session_id := some "sess-9" }

def c7User1 : EventDict := { id := some "u1", author := some "user" }
def c7Agent1 : EventDict := { id := some "a1", author := some "agent" }
def c7User3 : EventDict := { id := some "u3", author := some "user" }
def c7User4 : EventDict := { id := some "u4", author := some "user" }
def c7Agent2 : EventDict := { id := some "a2", author := some "agent" }

/-- A roster with one enabled agent `X`. -/
def c8Settings : GatewaySettings :=
  { agents := [{ agent_id := "X", name := "x", display_name := "Agent X" }] }

/-- A genai part carrying both a non-empty text and a function call, which
the pydantic Part type permits. -/
def c9Part : Part :=
  { text := some "hi", function_call := some { name := "get_weather" } }

/-! # Helper lemmas -/

/-- The try/except wrapper never lets any error kind other than
InvalidStateUpdate through. -/
theorem okOrInvalid_of_wrap (r : Except GatewayError (SessionState × Backend)) :
    okOrInvalidStateUpdate (exceptAsInvalidStateUpdate r) = true := by
  cases r with
  | ok v => rfl
  | error e => rfl

/-- Once the query loop holds a truthy session id, later events never change
it. -/
theorem sessionIdStep_fold_of_truthy (ds : List EventDict) (acc : Option String)
    (h : pyTruthyOptStr acc = true) : ds.foldl sessionIdStep acc = acc := by
  induction ds with
  | nil => rfl
  | cons d t ih => simp [List.foldl_cons, sessionIdStep, h, ih]

/-- The query loop's session-id fold, started from a falsy accumulator and
finished by `session_id or fallback`, computes the first truthy invocation id
of the event dicts, with the fallback when there is none. -/
theorem sessionIdFold_eq (ds : List EventDict) (acc : Option String)
    (h : pyTruthyOptStr acc = false) (fb : String) :
    (if pyTruthyOptStr (ds.foldl sessionIdStep acc) then
       (ds.foldl sessionIdStep acc).getD ""
     else fb) =
      (ds.findSome? (fun d =>
        match d.invocation_id with
        | some v => if v == "" then none else some v
        | none => none)).getD fb := by
  induction ds generalizing acc with
  | nil => simp [h]
  | cons d t ih =>
    rw [List.foldl_cons, List.findSome?_cons]
    cases hinv : d.invocation_id with
    | none =>
      have hstep : sessionIdStep acc d = acc := by
        simp [sessionIdStep, h, hinv]
      rw [hstep, ih acc h]
    | some v =>
      have hstep : sessionIdStep acc d = some v := by
        simp [sessionIdStep, h, hinv]
      rw [hstep]
      by_cases hv : v == ""
      · have hfalsy : pyTruthyOptStr (some v) = false := by
          simp [pyTruthyOptStr, hv]
        rw [ih (some v) hfalsy]
        simp [hv]
      · have htruthy : pyTruthyOptStr (some v) = true := by
          simp [pyTruthyOptStr]
          simpa using hv
        rw [sessionIdStep_fold_of_truthy t (some v) htruthy]
        simp [htruthy, hv]

/-- The session-id component of the query loop is the fold of
`sessionIdStep` over the normalized events. -/
theorem queryFold_session_id (bes : List BackendEvent) (a : QueryAcc) :
    (bes.foldl queryStep a).session_id =
      (bes.map adk_event_to_dict).foldl sessionIdStep a.session_id := by
  induction bes generalizing a with
  | nil => rfl
  | cons ev rest ih =>
    rw [List.foldl_cons, List.map_cons, List.foldl_cons, ih]
    rfl

/-- Updating an existing key in place (the map branch of `pySet`) makes the
lookup of that key return the new value. -/
theorem pyGet_map_set {α : Type} (k : String) (v : α) :
    ∀ d : List (String × α), d.any (fun p => p.1 == k) = true →
      pyGet (d.map (fun p => if p.1 == k then (p.1, v) else p)) k =
        some v := by
  intro d
  induction d with
  | nil => intro h; simp at h
  | cons p t ih =>
    intro hany
    obtain ⟨k1, v1⟩ := p
    simp only [List.map_cons]
    by_cases hpk : (k1 == k) = true
    · simp [pyGet, hpk]
    · have hne : (k1 == k) = false := by
        simpa using hpk
      have hta : t.any (fun p => p.1 == k) = true := by
        simpa [List.any_cons, hne] using hany
      simp [pyGet, hne]
      simpa using ih hta

/-- Appending a fresh key (the append branch of `pySet`) makes the lookup of
that key return the new value. -/
theorem pyGet_append_new {α : Type} (k : String) (v : α) :
    ∀ d : List (String × α), d.any (fun p => p.1 == k) = false →
      pyGet (d ++ [(k, v)]) k = some v := by
  intro d
  induction d with
  | nil => intro _; simp [pyGet]
  | cons p t ih =>
    intro hany
    obtain ⟨k1, v1⟩ := p
    simp only [List.any_cons, Bool.or_eq_false_iff] at hany
    obtain ⟨h1, h2⟩ := hany
    have hne : (k1 == k) = false := by
      simpa using h1
    simp [pyGet, hne, ih h2]

/-- After a Python dict update `d[k] = v`, looking up `k` yields `v`
(whether `k` was already present or was appended). -/
theorem pyGet_pySet_self {α : Type} (d : List (String × α)) (k : String)
    (v : α) : pyGet (pySet d k v) k = some v := by
  unfold pySet
  cases hany : d.any (fun p => p.1 == k) with
  | true => simpa [hany] using pyGet_map_set k v d hany
  | false => simpa [hany] using pyGet_append_new k v d hany

/-! # Claim theorems -/

/-- Claim C1, counterexample: on the three-event backend stream
[E1 partial-text, E2 full-text, E3 state-delta], `stream_query` yields 3
frames, not the 5 frames (message_start + one per event + message_complete)
the claim states. -/
theorem stream_query_three_events_yields_three_frames :
    (stream_query [streamE1, streamE2, streamE3]).length = 3 ∧
    (stream_query [streamE1, streamE2, streamE3]).length ≠ 5 := by
  refine ⟨rfl, by decide⟩

/-- Claim C1, amended: `stream_query` yields exactly one frame per backend
event — the normalized event dict, in arrival order — and never a synthetic
message_start or message_complete frame; on the three-event stream the output
is exactly the three normalized dicts. -/
theorem stream_query_one_frame_per_event :
    (∀ bes : List BackendEvent, (stream_query bes).length = bes.length) ∧
    stream_query [streamE1, streamE2, streamE3] =
      [{ id := some "e1", author := some "model",
         invocation_id := some "inv-1", timestamp := some 1,
         content := some { role := "model",
                           parts := [{ text := some "Hel" }] }
         incomplete_flag := some true },
       { id := some "e2", author := some "model",
         invocation_id := some "inv-1", timestamp := some 2,
         content := some { role := "model",
                           parts := [{ text := some "Hello" }] } },
       { id := some "e3", author := some "model",
         invocation_id := some "inv-1", timestamp := some 3,
         actions := some { state_delta := [("a", some 1)] } }] := by
  constructor
  · intro bes
    induction bes with
    | nil => rfl
    | cons ev rest ih => simp [stream_query, ih]
  · rfl

/-- Claim C2: on a session whose state is {a: 0, b: 2}, `update_state` with
replace=False and delta {a: 1} yields state {a: 1, b: 2}; with replace=True
it yields state {a: 1} (key b removed), and the replace path's merged delta
maps every pre-existing key to None with the caller's keys keeping the
caller's values ({a: 1, b: None}). -/
theorem update_state_merge_and_replace_law :
    update_state sessionBackend0 "s1" [("a", some 1)] false =
      .ok ([("a", 1), ("b", 2)],
           { sessions := [("s1", [("a", 1), ("b", 2)])] }) ∧
    update_state sessionBackend0 "s1" [("a", some 1)] true =
      .ok ([("a", 1)], { sessions := [("s1", [("a", 1)])] }) ∧
    pyMerge (clearDelta [("a", 0), ("b", 2)]) [("a", some 1)] =
      [("a", some 1), ("b", none)] := by
  refine ⟨rfl, rfl, by decide⟩

/-- Claim C3: an event carrying both a non-empty `actions.state_delta` and a
function_call content part is classified `state_update`, never
`function_call` (spec-modelled classifier, §4.2 priority order). -/
theorem classify_state_delta_over_function_call (d : EventDict)
    (h1 : hasNonemptyStateDelta d = true)
    (_h2 : hasFunctionCallPart d = true) :
    classify none d = .state_update ∧ classify none d ≠ .function_call := by
  have hc : classify none d = .state_update := by
    simp [classify, h1]
  exact ⟨hc, by simp [hc]⟩

/-- Witness for C3: a concrete event with both signals. -/
theorem classify_state_delta_over_function_call_witness :
    hasNonemptyStateDelta c3Event = true ∧
    hasFunctionCallPart c3Event = true ∧
    (classify none c3Event = .state_update ∧
     classify none c3Event ≠ .function_call) :=
  ⟨by decide, by decide,
   classify_state_delta_over_function_call c3Event (by decide) (by decide)⟩

/-- Claim C4, counterexample: with the target session missing,
`update_state` fails as InvalidStateUpdate (wrapping the not-found message),
not as SessionNotFound — the catch-all `except Exception` converts the
SessionNotFoundError raised by the replace path's get_session. -/
theorem update_state_missing_session_is_invalidStateUpdate :
    update_state { sessions := [] } "s1" [("a", some 1)] true =
      .error (.invalidStateUpdate "Session s1 not found") ∧
    update_state { sessions := [] } "s1" [("a", some 1)] true ≠
      .error (.sessionNotFound "s1") := by
  have h : update_state { sessions := [] } "s1" [("a", some 1)] true =
      .error (.invalidStateUpdate "Session s1 not found") := rfl
  refine ⟨h, ?_⟩
  rw [h]
  intro hc
  exact absurd (Except.error.inj hc) (by decide)

/-- Claim C4, amended: every failure of `update_state` — a backend append
rejection as well as a missing session — surfaces as InvalidStateUpdate;
SessionNotFound never escapes the method. -/
theorem update_state_failures_always_invalidStateUpdate :
    (∀ (b : Backend) (sid : String) (δ : StateDelta) (rep : Bool),
        okOrInvalidStateUpdate (update_state b sid δ rep) = true) ∧
    update_state rejectingBackend "s1" [("a", some 1)] false =
      .error (.invalidStateUpdate
        "Failed to append event: append rejected") := by
  refine ⟨fun b sid δ rep => okOrInvalid_of_wrap _, rfl⟩

/-- Claim C5, counterexample: `list_events(limit=3, offset=2)` on a ten-event
session returns the events at 0-indexed positions 2, 3, 4 — not the positions
3, 4, 5 the claim states. -/
theorem list_events_limit3_offset2_counterexample :
    (list_events c5Events (some 3) (some 2)).events =
      [c5Dict 2, c5Dict 3, c5Dict 4] ∧
    (list_events c5Events (some 3) (some 2)).events ≠
      [c5Dict 3, c5Dict 4, c5Dict 5] := by
  refine ⟨by decide, by decide⟩

/-- Claim C5, amended: on any ten-event session, `list_events(limit=3,
offset=2)` returns exactly the events at positions 2, 3, 4 in backend order,
normalizes only those three positions (never the skipped positions 0-1 nor
any position past the limit), and stops the backend iterator after pulling 5
items, never touching positions 5-9. -/
theorem list_events_limit3_offset2_positions
    (e0 e1 e2 e3 e4 e5 e6 e7 e8 e9 : BackendEvent) :
    list_events [e0, e1, e2, e3, e4, e5, e6, e7, e8, e9]
        (some 3) (some 2) =
      { events := [adk_event_to_dict e2, adk_event_to_dict e3,
                   adk_event_to_dict e4]
        normalized_positions := [2, 3, 4]
        pulled := 5 } := by
  rfl

/-- Claim C6, counterexample: `query` without a caller-supplied session id
resolves the returned session_id from the event's `invocation_id`, not from
the session id the stream carries — on an event carrying both, it returns
"inv-1" although the first (and only) session id observed on the stream is
"sess-9". -/
theorem query_session_id_ignores_stream_session_id :
    (query "u7" none [.dict c6Event]).session_id = "inv-1" ∧
    specFirstSessionId [.dict c6Event] = some "sess-9" ∧
    (query "u7" none [.dict c6Event]).session_id ≠ "sess-9" := by
  refine ⟨rfl, rfl, by decide⟩

/-- Claim C6, amended: for every call without a caller-supplied session id,
the returned session_id equals the first non-empty `invocation_id` observed
on the backend stream, and equals the placeholder "new-session-<user_id>"
when no streamed event supplies a non-empty invocation id. -/
theorem query_session_id_resolution (uid : String)
    (bes : List BackendEvent) :
    (query uid none bes).session_id =
      (firstTruthyInvocationId bes).getD ("new-session-" ++ uid) := by
  simp only [query]
  rw [queryFold_session_id]
  exact sessionIdFold_eq (bes.map adk_event_to_dict) none rfl _

/-- Claim C7: the author sequence [user, agent, user, user, agent] produces
exactly the turns (user1, agent1), (user3, None), (user4, agent2): a second
consecutive user event closes the turn with an empty agent slot, and the
final incomplete turn is flushed at end of list. -/
theorem conversation_pairing (e1 e2 e3 e4 e5 : EventDict)
    (h1 : e1.author = some "user") (h2 : e2.author = some "agent")
    (h3 : e3.author = some "user") (h4 : e4.author = some "user")
    (h5 : e5.author = some "agent") :
    get_conversation_history [e1, e2, e3, e4, e5] none =
      [{ user := some e1, agent := some e2 },
       { user := some e3, agent := none },
       { user := some e4, agent := some e5 }] := by
  simp [get_conversation_history, historyStep, h1, h2, h3, h4, h5]

/-- Witness for C7: five concrete events with that author sequence. -/
theorem conversation_pairing_witness :
    get_conversation_history
        [c7User1, c7Agent1, c7User3, c7User4, c7Agent2] none =
      [{ user := some c7User1, agent := some c7Agent1 },
       { user := some c7User3, agent := none },
       { user := some c7User4, agent := some c7Agent2 }] :=
  conversation_pairing c7User1 c7Agent1 c7User3 c7User4 c7Agent2
    rfl rfl rfl rfl rfl

/-- Claim C8: resolving a configured, enabled agent id that is not yet cached
constructs the service exactly once; the second resolution returns the same
cached handle and leaves the factory (and its construction count)
unchanged. -/
theorem registry_caching (st : GatewaySettings) (f : AgentServiceFactory)
    (agent_id : String) (cfg : AgentConfig)
    (hmiss : pyGet f.services agent_id = none)
    (hcfg : get_agent_config st agent_id = some cfg)
    (hen : cfg.enabled = true) :
    ∃ handle f1,
      get_agent_service st f agent_id = .ok (handle, f1) ∧
      get_agent_service st f1 agent_id = .ok (handle, f1) ∧
      f1.constructions = f.constructions + 1 := by
  refine ⟨f.constructions,
    { services := pySet f.services agent_id f.constructions
      constructions := f.constructions + 1 }, ?_, ?_, rfl⟩
  · unfold get_agent_service
    rw [hmiss, hcfg]
    simp [hen]
  · unfold get_agent_service
    rw [pyGet_pySet_self]

/-- Witness for C8: the enabled agent "X" of the one-entry roster, resolved
twice from an empty factory. -/
theorem registry_caching_witness :
    ∃ handle f1,
      get_agent_service c8Settings {} "X" = .ok (handle, f1) ∧
      get_agent_service c8Settings f1 "X" = .ok (handle, f1) ∧
      f1.constructions = ({} : AgentServiceFactory).constructions + 1 :=
  registry_caching c8Settings {} "X"
    { agent_id := "X", name := "x", display_name := "Agent X" } rfl rfl rfl

/-- Claim C9, counterexample: a genai part carrying both a non-empty text and
a function call (which the pydantic Part type permits) is normalized to a
part mapping with TWO of the five keys, refuting "at most one". -/
theorem part_to_dict_two_keys :
    (part_to_dict c9Part).keyCount = 2 ∧
    ¬ (part_to_dict c9Part).keyCount ≤ 1 := by
  refine ⟨rfl, by decide⟩

/-- Claim C9, amended: the normalized part mapping contains exactly one key
per truthy field of the source part — so at most one of the five keys exactly
when the part carries at most one truthy field; nothing in the normalizer
enforces exclusivity. -/
theorem part_to_dict_keyCount (p : Part) :
    (part_to_dict p).keyCount = partTruthyFieldCount p := by
  obtain ⟨t, fc, fr, fd, bd⟩ := p
  cases t with
  | none => rfl
  | some s =>
    by_cases hs : (s == "") = true
    · simp [part_to_dict, PartDict.keyCount, partTruthyFieldCount,
            pyTruthyOptStr, hs]
    · have hs2 : (s == "") = false := by simpa using hs
      simp [part_to_dict, PartDict.keyCount, partTruthyFieldCount,
            pyTruthyOptStr, hs2]

/-- Claim C10: the append-event endpoint invokes `append_event_async`, which
the EventService class never defines (it defines `append_event`), so the
AttributeError falls to the generic except branch: the endpoint always
responds 500 and the backend is never touched. -/
theorem append_event_endpoint_always_500 :
    (∀ (b : Backend) (sid : String) (δ : StateDelta),
        append_event_endpoint b sid δ = ({ status := 500 }, b)) ∧
    eventServiceMethodNames.contains "append_event_async" = false ∧
    eventServiceMethodNames.contains "append_event" = true := by
  refine ⟨fun b sid δ => rfl, by decide, by decide⟩

end ServeAdk
